import Mathlib

/-!
A shallow embedding of the authorization and lifecycle layer of the
job-portal backend: the `protect`/`authorize` middleware pair
(middlewares/authMiddleware.js), the job routes (routes/jobRoutes.js), the
application routes (routes/applicationRoutes.js), the admin routes
(routes/adminRoutes.js), the profile routes (routes/profileRoutes.js) and the
mongoose document models (models/User.js, models/Job.js).  Documents are
records over Nat identifiers and raw role/status strings (the code compares
roles and statuses as strings); the store is a triple of document lists with
find-by-id and replace-by-id semantics.  The mongoose bookkeeping timestamps
(createdAt/updatedAt) belong to the persistence engine, which the spec
scopes out, and are not modelled; the schema-declared datePosted field of a
Job is.
-/

/-- Profile subdocument of the User model (models/User.js): applicant fields
(resumeUrl, skills, experience, bio) and recruiter fields (companyName,
companyLogo, website, description).  Absent optional strings are `none`;
the skills array defaults to the empty list. -/
structure Profile where
  resumeUrl : Option String
  skills : List String
  experience : Option String
  bio : Option String
  companyName : Option String
  companyLogo : Option String
  website : Option String
  description : Option String
deriving Repr, DecidableEq

/-- User document (models/User.js): name, email, password hash, role (one of
the strings "applicant", "recruiter", "admin"), isBlocked flag and the
profile subdocument. -/
structure User where
  id : Nat
  name : String
  email : String
  password : String
  role : String
  isBlocked : Bool
  profile : Profile
deriving Repr, DecidableEq

/-- Job document (models/Job.js): required strings title, company, location,
salaryRange, description; requirements list; postedBy owner reference;
datePosted; and the status field whose schema enum is ["open", "closed"]. -/
structure Job where
  id : Nat
  title : String
  company : String
  location : String
  salaryRange : String
  description : String
  requirements : List String
  postedBy : Nat
  datePosted : Nat
  status : String
deriving Repr, DecidableEq

/-- Modelled from the spec: models/Application.js is absent from the sources
(only its importers appear).  Per spec section 3 an Application stores a job
reference, an applicant reference, a resume reference and a status string;
per sections 4.6 and 9 the schema declares no storage-level uniqueness
constraint on the (job, applicant) pair and the status field is persisted
without enum validation; per section 4.6 a fresh Application is created with
status "applied". -/
structure Application where
  id : Nat
  job : Nat
  applicant : Nat
  resumeUrl : String
  status : String
deriving Repr, DecidableEq

/-- The document store: one collection per model. -/
structure DB where
  users : List User
  jobs : List Job
  apps : List Application
deriving Repr, DecidableEq

/-- Model.findById on the users collection. -/
def findUser (db : DB) (i : Nat) : Option User :=
  db.users.find? (fun u => u.id == i)

/-- Model.findById on the jobs collection. -/
def findJob (db : DB) (i : Nat) : Option Job :=
  db.jobs.find? (fun j => j.id == i)

/-- Model.findById on the applications collection. -/
def findApp (db : DB) (i : Nat) : Option Application :=
  db.apps.find? (fun a => a.id == i)

/-- doc.save() on a loaded User document: the document replaces the stored
document with its id.  The User schema places no constraint that the
modelled flows (an isBlocked toggle, a profile merge) could violate, so the
write always commits. -/
def saveUserDoc (db : DB) (u : User) : DB :=
  { db with users := db.users.map (fun x => if x.id == u.id then u else x) }

/-- doc.save() on a loaded Application document.  Modelled from the spec:
with models/Application.js absent, spec sections 4.6 and 9 state that the
status field is accepted without enum validation, so the write always
commits verbatim. -/
def saveApp (db : DB) (a : Application) : DB :=
  { db with apps := db.apps.map (fun x => if x.id == a.id then a else x) }

/-- The validation mongoose runs on Job.save() against models/Job.js:
required string paths reject the empty string and the status path is
constrained to its declared enum ["open", "closed"]. -/
def jobValid (j : Job) : Bool :=
  j.title != "" && j.company != "" && j.location != "" &&
  j.salaryRange != "" && j.description != "" &&
  (j.status == "open" || j.status == "closed")

/-- doc.save() on a loaded Job document: validates against the schema and
throws a ValidationError otherwise (surfacing as the catch branch of the
calling handler). -/
def saveJob (db : DB) (j : Job) : Except String DB :=
  if jobValid j then
    .ok { db with jobs := db.jobs.map (fun x => if x.id == j.id then j else x) }
  else
    .error "ValidationError"

/-- Decoded JWT payload as issued by routes/authRoutes.js: subject id and a
declared role claim.  The role claim is carried so that theorems can state
that the verifier never reads it. -/
structure TokenPayload where
  id : Nat
  role : String
deriving Repr, DecidableEq

/-- A bearer credential as jwt.verify sees it: verification either throws
(malformed, expired or badly signed token) or yields the decoded payload. -/
inductive Token where
| malformed : Token
| valid : TokenPayload → Token
deriving Repr, DecidableEq

/-- middlewares/authMiddleware.js `protect`, the variant wired ahead of the
routes: a missing Authorization header answers 401, a failing jwt.verify
answers 401, a subject with no User record answers 401, a blocked account
answers 403 "Account blocked", and otherwise the persisted User record is
attached to the request.  Only the id claim of the payload is read. -/
def protect (db : DB) (auth : Option Token) : Except (Nat × String) User :=
  match auth with
  | none => .error (401, "Not authorized, no token")
  | some .malformed => .error (401, "Not authorized, token failed")
  | some (.valid p) =>
    match findUser db p.id with
    | none => .error (401, "Not authorized")
    | some u =>
      if u.isBlocked then .error (403, "Account blocked")
      else .ok u

/-- The first `protect` variant in middlewares/authMiddleware.js: it attaches
whatever findById returned (possibly null) and calls next() with no
existence check and no blocked-status check. -/
def protectFirstVariant (db : DB) (auth : Option Token) :
    Except (Nat × String) (Option User) :=
  match auth with
  | none => .error (401, "Not authorized, No token")
  | some .malformed => .error (401, "Not authorized, token failed")
  | some (.valid p) => .ok (findUser db p.id)

/-- middlewares/authMiddleware.js `authorize(...roles)`: 403 "Access denied"
unless the attached user's persisted role is in the allow-list. -/
def authorize (roles : List String) (u : User) : Except (Nat × String) User :=
  if roles.contains u.role then .ok u
  else .error (403, "Access denied")

/-- The `protect` then `authorize` middleware chain in front of a route. -/
def gate (db : DB) (auth : Option Token) (roles : List String) :
    Except (Nat × String) User :=
  (protect db auth).bind (authorize roles)

/-- A gated route: the handler body runs only when the middleware chain
passes; a middleware rejection is turned into the response directly. -/
def runRoute {α : Type} (db : DB) (auth : Option Token) (roles : List String)
    (onErr : Nat × String → α) (h : User → α) : α :=
  match gate db auth roles with
  | .error e => onErr e
  | .ok u => h u

instance {ε α : Type} [DecidableEq ε] [DecidableEq α] : DecidableEq (Except ε α) :=
  fun a b =>
    match a, b with
    | .error e1, .error e2 =>
      if h : e1 = e2 then .isTrue (by rw [h])
      else .isFalse (by intro hc; cases hc; exact h rfl)
    | .ok v1, .ok v2 =>
      if h : v1 = v2 then .isTrue (by rw [h])
      else .isFalse (by intro hc; cases hc; exact h rfl)
    | .error _, .ok _ => .isFalse (by intro hc; cases hc)
    | .ok _, .error _ => .isFalse (by intro hc; cases hc)

/-- Split a character list at every slash (kernel-reducible stand-in for
String.split on "/"); `cur` holds the characters of the current segment in
reverse. -/
def splitSlashAux (cur : List Char) : List Char → List (List Char)
  | [] => [cur.reverse]
  | c :: cs =>
    if c = '/' then cur.reverse :: splitSlashAux [] cs
    else splitSlashAux (c :: cur) cs

/-- Split a string into its slash-separated segments. -/
def splitSlash (s : String) : List String :=
  (splitSlashAux [] s.data).map (fun l => ⟨l⟩)

/-- Join segments with slashes (kernel-reducible stand-in for joining). -/
def joinSlash : List String → String
  | [] => ""
  | [x] => x
  | x :: xs => x ++ "/" ++ joinSlash xs

/-- String prefix test (kernel-reducible stand-in for String.startsWith):
true when `pre` is a prefix of `s`. -/
def strStartsWith (s pre : String) : Bool :=
  pre.data.isPrefixOf s.data

/-- Normalization core of Node path.resolve on POSIX paths: segments are
processed left to right; empty and "." segments vanish, ".." removes the
last kept segment (or nothing at the root), any other segment is kept.
`acc` holds the kept segments in reverse. -/
def resolveSegs (acc : List String) : List String → List String
  | [] => acc.reverse
  | s :: rest =>
    if s = "" || s = "." then resolveSegs acc rest
    else if s = ".." then resolveSegs acc.tail rest
    else resolveSegs (s :: acc) rest

/-- Node path.resolve(base, rel) on POSIX paths with an absolute base: an
absolute rel stands alone, otherwise rel is joined to base, and the joined
path is normalized. -/
def pathResolve (base rel : String) : String :=
  let full := if strStartsWith rel "/" then rel else base ++ "/" ++ rel
  "/" ++ joinSlash (resolveSegs [] (splitSlash full))

/-- Lexical containment of a path inside a root directory: the path is the
root itself or extends it across a path separator.  This is the containment
notion of spec section 4.4, stated here to compare with what the code's
string-prefix test actually enforces. -/
def withinRoot (root p : String) : Bool :=
  p == root || strStartsWith p (root ++ "/")

/-- Response of the resume route: a status/message pair or res.sendFile of
the resolved path. -/
inductive ResumeOut where
| resp : Nat → String → ResumeOut
| send : String → ResumeOut
deriving Repr, DecidableEq

/-- routes/applicationRoutes.js GET /:id/resume handler body (behind
protect and authorize("recruiter", "admin")): resolves
application.resumeUrl against process.cwd(), answers 400 "Invalid resume
path" when the resolved string does not start with resolve(cwd, "uploads"),
404 when fs.existsSync is false on it, and otherwise sends the file inline.
`fsFiles` models the paths on which fs.existsSync returns true; the
`application.resumeUrl || ""` null-guard of the source is the identity here
because the modelled field is a plain string. -/
def getResumeH (cwd : String) (fsFiles : List String) (db : DB) (appId : Nat) :
    ResumeOut :=
  match findApp db appId with
  | none => .resp 404 "Application not found"
  | some a =>
    let resumePath := pathResolve cwd a.resumeUrl
    if !(strStartsWith resumePath (pathResolve cwd "uploads")) then
      .resp 400 "Invalid resume path"
    else if !(fsFiles.contains resumePath) then
      .resp 404 "Resume file not found"
    else
      .send resumePath

/-- The read phase of routes/applicationRoutes.js POST /:id/apply: the job
existence check and the duplicate-application lookup, exactly the part that
precedes the insert. -/
def applyCheck (db : DB) (jobId : Nat) (callerId : Nat) : Option (Nat × String) :=
  match findJob db jobId with
  | none => some (404, "Job not found")
  | some _ =>
    match db.apps.find? (fun a => a.job == jobId && a.applicant == callerId) with
    | some _ => some (400, "Already applied for this job")
    | none => none

/-- The insert phase of POST /:id/apply: new Application({job, applicant,
resumeUrl}) followed by save(); status takes the spec-modelled schema
default "applied". -/
def applyInsert (db : DB) (newId jobId callerId : Nat) (resumePath : String) : DB :=
  { db with
    apps := db.apps ++
      [{ id := newId, job := jobId, applicant := callerId,
         resumeUrl := resumePath, status := "applied" }] }

/-- routes/applicationRoutes.js POST /:id/apply handler body (behind
protect, authorize("applicant") and the multer upload): the read phase,
then the resume-file-required validation, then the insert.  `file` is
req.file.path when multer stored an upload. -/
def applyH (db : DB) (jobId : Nat) (file : Option String) (newId : Nat)
    (caller : User) : (Nat × String) × DB :=
  match applyCheck db jobId caller.id with
  | some e => (e, db)
  | none =>
    match file with
    | none => ((400, "Resume file is required"), db)
    | some path =>
      ((200, "Application submitted"), applyInsert db newId jobId caller.id path)

/-- routes/applicationRoutes.js PUT /:id/status handler body (behind
protect and authorize("recruiter", "admin")).  populate("job") yields the
referenced job or null; the recruiter branch dereferences
application.job.postedBy, which on a null job throws and lands in the catch
block as 500 "Server error".  On the authorized path the caller-supplied
status string is saved verbatim. -/
def updateStatusH (db : DB) (appId : Nat) (newStatus : String) (caller : User) :
    (Nat × String) × DB :=
  match findApp db appId with
  | none => ((404, "Application not found"), db)
  | some a =>
    if caller.role == "recruiter" then
      match findJob db a.job with
      | none => ((500, "Server error"), db)
      | some j =>
        if j.postedBy != caller.id then
          ((403, "Not authorized to update this application"), db)
        else
          ((200, "Application status updated"), saveApp db { a with status := newStatus })
    else
      ((200, "Application status updated"), saveApp db { a with status := newStatus })

/-- Request body of PUT /jobs/:id: each Job field the caller may try to
send, absent members as `none`. -/
structure JobBody where
  title : Option String
  company : Option String
  location : Option String
  salaryRange : Option String
  description : Option String
  requirements : Option (List String)
  postedBy : Option Nat
  datePosted : Option Nat
  status : Option String
deriving Repr, DecidableEq

/-- The allowedFields forEach loop of routes/jobRoutes.js PUT /:id: each of
the six whitelisted fields present in the body overwrites the document
field; body members outside the whitelist are never read. -/
def applyAllowedFields (j : Job) (b : JobBody) : Job :=
  { j with
    title := b.title.getD j.title,
    company := b.company.getD j.company,
    location := b.location.getD j.location,
    salaryRange := b.salaryRange.getD j.salaryRange,
    description := b.description.getD j.description,
    requirements := b.requirements.getD j.requirements }

/-- The Object.assign(job, req.body) line of the duplicate PUT /jobs/:id
variant: every body member overwrites the document field of the same name,
postedBy, datePosted and status included. -/
def applyAssignBody (j : Job) (b : JobBody) : Job :=
  { j with
    title := b.title.getD j.title,
    company := b.company.getD j.company,
    location := b.location.getD j.location,
    salaryRange := b.salaryRange.getD j.salaryRange,
    description := b.description.getD j.description,
    requirements := b.requirements.getD j.requirements,
    postedBy := b.postedBy.getD j.postedBy,
    datePosted := b.datePosted.getD j.datePosted,
    status := b.status.getD j.status }

/-- routes/jobRoutes.js PUT /:id handler body (behind protect and
authorize("recruiter", "admin")): 404 on a missing job, 403 unless the
caller owns the job or is an admin, then the whitelist update and save;
a save rejection lands in the catch block as 500.  On success the updated
document is returned (readable off the new state). -/
def updateJobH (db : DB) (jobId : Nat) (b : JobBody) (caller : User) :
    (Nat × String) × DB :=
  match findJob db jobId with
  | none => ((404, "Job not found"), db)
  | some j =>
    if j.postedBy != caller.id && caller.role != "admin" then
      ((403, "Not authorized to update this job"), db)
    else
      match saveJob db (applyAllowedFields j b) with
      | .ok db2 => ((200, ""), db2)
      | .error _ => ((500, "Server error"), db)

/-- routes/jobRoutes.js GET /:id handler body (behind protect and
authorize("applicant", "recruiter", "admin")): note the missing-job branch
answers status 400, not 404. -/
def getJobByIdH (db : DB) (jobId : Nat) : Except (Nat × String) Job :=
  match findJob db jobId with
  | none => .error (400, "Job not found")
  | some j => .ok j

/-- The authorize allow-list on GET /jobs/:id in routes/jobRoutes.js. -/
def jobFetchRoles : List String := ["applicant", "recruiter", "admin"]

/-- The authorize allow-list of the duplicate GET /jobs/:id route, with the
misspelled recruiter role. -/
def jobFetchRolesVariant : List String := ["applicant", "recruter", "admin"]

/-- routes/adminRoutes.js PUT /jobs/:id/approve handler body (behind
protect and authorize("admin")): sets job.status to the caller-supplied
string, with no ownership check, and saves; a save rejection lands in the
catch block as 500 "Server error", leaving the store unchanged. -/
def approveJobH (db : DB) (jobId : Nat) (status : String) : (Nat × String) × DB :=
  match findJob db jobId with
  | none => ((404, "Job not found"), db)
  | some j =>
    match saveJob db { j with status := status } with
    | .ok db2 => ((200, "Job " ++ status ++ " successfully"), db2)
    | .error _ => ((500, "Server error"), db)

/-- routes/adminRoutes.js PUT /users/:id/toggle handler body (behind
protect and authorize("admin")): 404 on a missing user, else isBlocked is
negated and the document saved. -/
def toggleUserH (db : DB) (targetId : Nat) : (Nat × String) × DB :=
  match findUser db targetId with
  | none => ((404, "User not found"), db)
  | some t =>
    let t2 : User := { t with isBlocked := !t.isBlocked }
    ((200, if t2.isBlocked then "User blocked successfully"
           else "User unblocked successfully"),
     saveUserDoc db t2)

/-- Request body of PUT /profile/me: the profile fields the caller may
send, absent members as `none`. -/
structure ProfileBody where
  resumeUrl : Option String
  skills : Option (List String)
  experience : Option String
  bio : Option String
  companyName : Option String
  companyLogo : Option String
  website : Option String
  description : Option String
deriving Repr, DecidableEq

/-- Mongoose casting of a request body assigned wholesale to the profile
path by $set: absent members come out absent, the skills array defaults to
the empty list. -/
def profileOfBody (b : ProfileBody) : Profile :=
  { resumeUrl := b.resumeUrl, skills := b.skills.getD [],
    experience := b.experience, bio := b.bio, companyName := b.companyName,
    companyLogo := b.companyLogo, website := b.website,
    description := b.description }

/-- routes/profileRoutes.js PUT /me handler body (behind protect):
findByIdAndUpdate with $set of the whole profile object, so the stored
profile is replaced by the cast body; a missing user makes
findByIdAndUpdate return null and the handler still answers 200. -/
def putProfileMeH (db : DB) (callerId : Nat) (b : ProfileBody) :
    (Nat × String) × DB :=
  match findUser db callerId with
  | none => ((200, "Profile updated"), db)
  | some u =>
    ((200, "Profile updated"), saveUserDoc db { u with profile := profileOfBody b })

/-- The skills member of the PUT /profile/update body: the route accepts a
comma-separated string or an array. -/
inductive SkillsField where
| str : String → SkillsField
| arr : List String → SkillsField
deriving Repr, DecidableEq

/-- Request body of PUT /profile/update: name plus the profile fields the
route handles; resumeUrl and companyLogo have no corresponding block
there. -/
structure UpdateBody where
  name : Option String
  skills : Option SkillsField
  experience : Option String
  bio : Option String
  companyName : Option String
  website : Option String
  description : Option String
deriving Repr, DecidableEq

/-- Skills normalization of PUT /profile/update: a string is split on
commas, entries trimmed and empties dropped; an array is taken as is. -/
def normalizeSkills (s : SkillsField) : List String :=
  match s with
  | .str raw => ((raw.splitOn ",").map String.trim).filter (fun x => x != "")
  | .arr l => l

/-- The per-field merge block of routes/profileRoutes.js PUT /update: each
guarded assignment overwrites its own profile field when the body member is
present; resumeUrl and companyLogo are deliberately not touched by this
path. -/
def mergeProfile (p : Profile) (b : UpdateBody) : Profile :=
  { p with
    skills := match b.skills with | none => p.skills | some s => normalizeSkills s,
    experience := match b.experience with | none => p.experience | some v => some v,
    bio := match b.bio with | none => p.bio | some v => some v,
    companyName := match b.companyName with | none => p.companyName | some v => some v,
    website := match b.website with | none => p.website | some v => some v,
    description := match b.description with | none => p.description | some v => some v }

/-- routes/profileRoutes.js PUT /update handler body (behind protect): 404
on a missing user, else the top-level name is updated when present, the
profile fields are merged per-field, and the document is saved. -/
def putProfileUpdateH (db : DB) (callerId : Nat) (b : UpdateBody) :
    (Nat × String) × DB :=
  match findUser db callerId with
  | none => ((404, "User not found"), db)
  | some u =>
    let u1 : User := { u with name := b.name.getD u.name }
    ((200, "Profile updated"),
     saveUserDoc db { u1 with profile := mergeProfile u.profile b })

/-- The number of stored Applications for a (job, applicant) pair. -/
def countPair (db : DB) (jobId uid : Nat) : Nat :=
  (db.apps.filter (fun a => a.job == jobId && a.applicant == uid)).length

/-- A profile with every optional field absent. -/
def emptyProfile : Profile :=
  { resumeUrl := none, skills := [], experience := none, bio := none,
    companyName := none, companyLogo := none, website := none,
    description := none }

/-- Concrete recruiter account for the scenarios. -/
def recruiterUser : User :=
  { id := 3, name := "Rita", email := "rita@jobs.example", password := "h1",
    role := "recruiter", isBlocked := false, profile := emptyProfile }

/-- Concrete admin account for the scenarios. -/
def adminUser : User :=
  { id := 4, name := "Ada", email := "ada@jobs.example", password := "h2",
    role := "admin", isBlocked := false, profile := emptyProfile }

/-- The trusted-root base directory of the concrete resume scenarios,
standing for process.cwd(). -/
def guardCwd : String := "/srv/portal"

/-- An Application whose stored resume reference contains parent-directory
segments and resolves to a sibling of the uploads directory. -/
def escapeApp : Application :=
  { id := 1, job := 1, applicant := 2,
    resumeUrl := "uploads/../uploadsEvil/secret.pdf", status := "applied" }

/-- An Application whose stored resume reference climbs out of the shared
string prefix altogether. -/
def traversalApp : Application :=
  { id := 2, job := 1, applicant := 5,
    resumeUrl := "uploads/resumes/../../../etc/passwd", status := "applied" }

/-- Store for the resume-guard scenarios. -/
def guardDb : DB :=
  { users := [recruiterUser], jobs := [], apps := [escapeApp, traversalApp] }

/-- A schema-valid open job owned by the recruiter account. -/
def moderatedJob : Job :=
  { id := 1, title := "Dev", company := "Acme", location := "Remote",
    salaryRange := "10-20", description := "dev role", requirements := ["js"],
    postedBy := 3, datePosted := 0, status := "open" }

/-- Store for the moderation scenario. -/
def moderationDb : DB :=
  { users := [adminUser, recruiterUser], jobs := [moderatedJob], apps := [] }

/-- An Application referencing job 9, which is absent from the store. -/
def orphanApp : Application :=
  { id := 5, job := 9, applicant := 2, resumeUrl := "uploads/resumes/r1.pdf",
    status := "applied" }

/-- Store with an orphaned Application and no jobs. -/
def orphanDb : DB :=
  { users := [recruiterUser, adminUser], jobs := [], apps := [orphanApp] }

/-- The blocked account of the concrete scenario. -/
def blockedUser : User :=
  { id := 8, name := "Bob", email := "bob@jobs.example", password := "h3",
    role := "recruiter", isBlocked := true, profile := emptyProfile }

/-- Store holding the blocked account. -/
def blockedDb : DB :=
  { users := [blockedUser, adminUser], jobs := [], apps := [] }

/-- A body that tries to overwrite protected fields alongside a whitelisted
one. -/
def tamperBody : JobBody :=
  { title := some "Senior Dev", company := none, location := none,
    salaryRange := none, description := none, requirements := none,
    postedBy := some 99, datePosted := some 123, status := some "closed" }

/-- The application of the owned-job scenario: applicant 2 applied to
job 1, which recruiter 3 owns. -/
def workApp : Application :=
  { id := 11, job := 1, applicant := 2,
    resumeUrl := "uploads/resumes/w.pdf", status := "applied" }

/-- A second recruiter, who owns nothing. -/
def otherRecruiter : User :=
  { id := 6, name := "Remy", email := "remy@jobs.example", password := "h4",
    role := "recruiter", isBlocked := false, profile := emptyProfile }

/-- Store for the status-update scenario. -/
def statusDb : DB :=
  { users := [recruiterUser, otherRecruiter, adminUser],
    jobs := [moderatedJob], apps := [workApp] }

/-- The job-to-apply-to of the concrete race scenario, owned by
recruiter 3, and an applicant account. -/
def applicantUser : User :=
  { id := 2, name := "Ann", email := "ann@jobs.example", password := "h5",
    role := "applicant", isBlocked := false, profile := emptyProfile }

/-- Store for the apply scenario: job 1 exists, no applications yet. -/
def applyDb : DB :=
  { users := [recruiterUser, applicantUser], jobs := [moderatedJob], apps := [] }

/-- An account with a populated profile for the profile-route scenarios. -/
def profiledUser : User :=
  { id := 12, name := "Pat", email := "pat@jobs.example", password := "h6",
    role := "applicant", isBlocked := false,
    profile :=
      { resumeUrl := some "uploads/resumes/p.pdf", skills := ["js"],
        experience := none, bio := some "old bio", companyName := none,
        companyLogo := some "uploads/logos/l.png", website := none,
        description := none } }

/-- Store for the profile-route scenarios. -/
def profileDb : DB := { users := [profiledUser], jobs := [], apps := [] }

/-- A PUT /profile/me body carrying only a bio. -/
def meBody : ProfileBody :=
  { resumeUrl := none, skills := none, experience := none,
    bio := some "new bio", companyName := none, companyLogo := none,
    website := none, description := none }

/-- A PUT /profile/update body carrying only an experience value. -/
def upBody : UpdateBody :=
  { name := none, skills := none, experience := some "5 years",
    bio := none, companyName := none, website := none, description := none }

/-- C1: refuted on the code.  The guard on GET /applications/:id/resume is a
raw string-prefix test on resolved paths, not lexical containment: the
stored reference "uploads/../uploadsEvil/secret.pdf" contains
parent-directory segments and resolves to /srv/portal/uploadsEvil/secret.pdf,
which is not contained in the uploads root, yet it passes the guard and the
file is served; by contrast a reference resolving outside the shared string
prefix is rejected with 400 even though the file exists at the resolved
location. -/
theorem resume_guard_prefix_bypass :
    getResumeH guardCwd ["/srv/portal/uploadsEvil/secret.pdf"] guardDb 1
      = .send "/srv/portal/uploadsEvil/secret.pdf"
    ∧ withinRoot (pathResolve guardCwd "uploads")
        "/srv/portal/uploadsEvil/secret.pdf" = false
    ∧ getResumeH guardCwd ["/srv/etc/passwd"] guardDb 2
      = .resp 400 "Invalid resume path" := by
  decide

/-- C5: refuted on the code.  The admin moderation handler writes the
caller-supplied "approved"/"rejected" into the Job status path whose schema
enum is ["open", "closed"], so save() throws ValidationError and the route
answers 500 with the store unchanged — the moderation status is never
persisted, although the job itself is schema-valid. -/
theorem job_moderation_save_rejected :
    approveJobH moderationDb 1 "approved" = ((500, "Server error"), moderationDb)
    ∧ approveJobH moderationDb 1 "rejected" = ((500, "Server error"), moderationDb)
    ∧ jobValid moderatedJob = true
    ∧ findJob (approveJobH moderationDb 1 "approved").2 1 = some moderatedJob := by
  decide

/-- C6 counterexample: at the concrete orphaned Application (its job was
deleted from the store), a recruiter caller — who certainly does not own the
job — receives 500 "Server error" (the null job dereference), not the
Forbidden the claim promises, while an admin caller still succeeds. -/
theorem status_update_orphan_not_forbidden :
    updateStatusH orphanDb 5 "shortlisted" recruiterUser
      = ((500, "Server error"), orphanDb)
    ∧ (updateStatusH orphanDb 5 "shortlisted" recruiterUser).1.1 ≠ 403
    ∧ (updateStatusH orphanDb 5 "shortlisted" adminUser).1
      = (200, "Application status updated") := by
  decide

/-- C8 counterexample: fetching a nonexistent job by id answers status 400,
not the 404 the claim asserts for every missing-resource failure. -/
theorem missing_job_fetch_answers_400 :
    getJobByIdH orphanDb 42 = .error (400, "Job not found")
    ∧ (400 : Nat) ≠ 404 := by
  decide

/-- find? over a replace-by-key write: when the lookup of key `i` found `a`
and the written document `b` keeps a's key, the lookup after the write
finds `b`. -/
theorem find?_replace {α : Type} (key : α → Nat) (i : Nat) (l : List α)
    (a b : α) (h : l.find? (fun x => key x == i) = some a)
    (hb : key b = key a) :
    (l.map (fun x => if key x == key b then b else x)).find?
      (fun x => key x == i) = some b := by
  have hai : (key a == i) = true := by
    have hx := List.find?_some h
    exact hx
  induction l with
  | nil => simp at h
  | cons hd tl ih =>
    by_cases hp : (key hd == i) = true
    · have hfind : List.find? (fun x => key x == i) (hd :: tl) = some hd := by
        simp [List.find?, hp]
      rw [hfind] at h
      injection h with h
      subst h
      have hhd : (key hd == key b) = true := by
        rw [hb, beq_iff_eq]
      simp [List.map_cons, List.find?, hhd, hb, hai]
    · have hp2 : (key hd == i) = false := by
        simpa using hp
      have h2 : List.find? (fun x => key x == i) tl = some a := by
        simpa [List.find?, hp2] using h
      have hhd : (key hd == key b) = false := by
        rw [hb]
        by_contra hx
        rw [Bool.not_eq_false, beq_iff_eq] at hx
        rw [hx, hai] at hp2
        exact absurd hp2 (by simp)
      simp only [List.map_cons, List.find?, hhd, hp2]
      simp only [Bool.false_eq_true, if_false]
      simp only [List.find?, hp2]
      exact ih h2

/-- A replace-by-key write leaves every document with a different key in the
collection. -/
theorem mem_replace_of_ne {α : Type} (key : α → Nat) (l : List α) (b x : α)
    (hx : x ∈ l) (hne : key x ≠ key b) :
    x ∈ l.map (fun y => if key y == key b then b else y) := by
  have h := List.mem_map_of_mem (fun y => if key y == key b then b else y) hx
  simpa [hne] using h

/-- Writing back a document identical to the stored one is a no-op on a
collection whose keys are distinct. -/
theorem map_replace_self {α : Type} (key : α → Nat) (l : List α) (t : α)
    (hmem : t ∈ l) (hnd : (l.map key).Nodup) :
    l.map (fun x => if key x == key t then t else x) = l := by
  induction l with
  | nil => rfl
  | cons hd tl ih =>
    rw [List.map_cons, List.nodup_cons] at hnd
    obtain ⟨hhd, htl⟩ := hnd
    rcases List.mem_cons.mp hmem with rfl | hmem'
    · rw [List.map_cons, if_pos (by simp)]
      congr 1
      have : ∀ x ∈ tl, (if key x == key t then t else x) = x := by
        intro x hx
        rw [if_neg]
        simp only [beq_iff_eq]
        intro he
        exact hhd (he ▸ List.mem_map_of_mem key hx)
      rw [List.map_congr_left this]
      simp
    · rw [List.map_cons, if_neg, ih hmem' htl]
      simp only [beq_iff_eq]
      intro he
      exact hhd (he ▸ List.mem_map_of_mem key hmem')

/-- C2: confirmed.  Behind the credential verifier, a structurally valid
token for a blocked account answers 403 "Account blocked" (not 401), the
same response for every allow-list and every handler, and the handler never
runs (the outcome is the error continuation, for an arbitrary handler over
an arbitrary result type).  Moreover `protect` ignores the declared role
claim of the payload entirely, and whenever it succeeds the attached
identity is exactly the persisted Account record. -/
theorem blocked_account_forbidden
    (db : DB) (p : TokenPayload) (u : User) (roles : List String)
    (hu : findUser db p.id = some u) :
    (u.isBlocked = true →
      ∀ (α : Type) (onErr : Nat × String → α) (h : User → α),
        runRoute db (some (.valid p)) roles onErr h
          = onErr (403, "Account blocked"))
    ∧ (∀ r : String,
        protect db (some (.valid ⟨p.id, r⟩)) = protect db (some (.valid p)))
    ∧ (protect db (some (.valid p)) = .error (403, "Account blocked")
       ∨ protect db (some (.valid p)) = .ok u) := by
  refine ⟨?_, ?_, ?_⟩
  · intro hb α onErr h
    simp [runRoute, gate, protect, hu, hb, Except.bind]
  · intro r
    simp [protect]
  · by_cases hb : u.isBlocked <;> simp [protect, hu, hb]

/-- Witness for C2 at the concrete blocked recruiter, with a token whose
declared role even claims "admin". -/
theorem blocked_account_forbidden_witness :
    findUser blockedDb 8 = some blockedUser
    ∧ ((blockedUser.isBlocked = true →
        ∀ (α : Type) (onErr : Nat × String → α) (h : User → α),
          runRoute blockedDb (some (.valid ⟨8, "admin"⟩))
            ["recruiter", "admin"] onErr h = onErr (403, "Account blocked"))
      ∧ (∀ r : String,
          protect blockedDb (some (.valid ⟨8, r⟩))
            = protect blockedDb (some (.valid ⟨8, "admin"⟩)))
      ∧ (protect blockedDb (some (.valid ⟨8, "admin"⟩))
            = .error (403, "Account blocked")
         ∨ protect blockedDb (some (.valid ⟨8, "admin"⟩)) = .ok blockedUser)) :=
  ⟨by decide,
   blocked_account_forbidden blockedDb ⟨8, "admin"⟩ blockedUser
     ["recruiter", "admin"] (by decide)⟩

/-- C7: confirmed.  The role gate of GET /jobs/:id in routes/jobRoutes.js
admits every authenticated role: for any user whose persisted role is
applicant, recruiter or admin, authorize passes, and the full middleware
chain delivers the user to the handler whenever protect accepts. -/
theorem job_fetch_gate_admits_all_roles (u : User)
    (h : u.role = "applicant" ∨ u.role = "recruiter" ∨ u.role = "admin") :
    authorize jobFetchRoles u = .ok u
    ∧ ∀ (db : DB) (auth : Option Token),
        protect db auth = .ok u → gate db auth jobFetchRoles = .ok u := by
  have hm : u.role ∈ jobFetchRoles := by
    rcases h with h | h | h <;> rw [h] <;> decide
  constructor
  · simp [authorize, hm]
  · intro db auth hp
    simp [gate, hp, Except.bind, authorize, hm]

/-- Witness for C7 at the concrete recruiter account. -/
theorem job_fetch_gate_admits_all_roles_witness :
    (recruiterUser.role = "applicant" ∨ recruiterUser.role = "recruiter"
      ∨ recruiterUser.role = "admin")
    ∧ (authorize jobFetchRoles recruiterUser = .ok recruiterUser
       ∧ ∀ (db : DB) (auth : Option Token),
           protect db auth = .ok recruiterUser →
             gate db auth jobFetchRoles = .ok recruiterUser) :=
  ⟨by decide, job_fetch_gate_admits_all_roles recruiterUser (by decide)⟩

/-- The duplicate GET /jobs/:id allow-list misspells the recruiter role, so
there a genuine recruiter is refused; recorded as context for the live
route's behavior, which theorem job_fetch_gate_admits_all_roles settles. -/
theorem job_fetch_variant_rejects_recruiter :
    authorize jobFetchRolesVariant recruiterUser = .error (403, "Access denied") := by
  decide

/-- The first `protect` variant performs no blocked-account check: the
blocked recruiter of the scenario sails through with the user attached;
recorded as context for the wired variant settled by theorem
blocked_account_forbidden. -/
theorem protect_first_variant_admits_blocked :
    protectFirstVariant blockedDb (some (.valid ⟨8, "recruiter"⟩))
      = .ok (some blockedUser) := by
  decide

/-- Negating the isBlocked flag twice restores the User record. -/
theorem user_toggle_toggle (u : User) :
    ({ u with isBlocked := !(!u.isBlocked) } : User) = u := by
  cases u
  simp

/-- C10: confirmed.  On a store whose user ids are distinct, the admin
toggle answers 200 and stores for the target exactly the original record
with isBlocked negated — no other field of the account changes —, every
other user document and the other collections are untouched, and running
the toggle twice restores the store exactly (the blocked state is an
involution). -/
theorem admin_toggle_involution
    (db : DB) (t : User)
    (hid : findUser db t.id = some t)
    (hnd : (db.users.map User.id).Nodup) :
    (toggleUserH db t.id).1.1 = 200
    ∧ findUser (toggleUserH db t.id).2 t.id
        = some { t with isBlocked := !t.isBlocked }
    ∧ (∀ x ∈ db.users, x.id ≠ t.id → x ∈ (toggleUserH db t.id).2.users)
    ∧ (toggleUserH db t.id).2.jobs = db.jobs
    ∧ (toggleUserH db t.id).2.apps = db.apps
    ∧ (toggleUserH (toggleUserH db t.id).2 t.id).2 = db := by
  have hmem : t ∈ db.users := List.mem_of_find?_eq_some hid
  have happly : toggleUserH db t.id
      = ((200, if !t.isBlocked then "User blocked successfully"
               else "User unblocked successfully"),
         saveUserDoc db { t with isBlocked := !t.isBlocked }) := by
    simp [toggleUserH, hid]
  have hfind1 : findUser (saveUserDoc db { t with isBlocked := !t.isBlocked }) t.id
      = some { t with isBlocked := !t.isBlocked } := by
    simp only [findUser, saveUserDoc]
    exact find?_replace User.id t.id db.users t
      { t with isBlocked := !t.isBlocked } hid rfl
  refine ⟨by rw [happly], by rw [happly]; exact hfind1, ?_,
    by rw [happly]; rfl, by rw [happly]; rfl, ?_⟩
  · intro x hx hne
    rw [happly]
    exact mem_replace_of_ne User.id db.users
      { t with isBlocked := !t.isBlocked } x hx hne
  · rw [happly]
    have happly2 : toggleUserH
        (saveUserDoc db { t with isBlocked := !t.isBlocked }) t.id
        = ((200, if !(!t.isBlocked) then "User blocked successfully"
                 else "User unblocked successfully"),
           saveUserDoc (saveUserDoc db { t with isBlocked := !t.isBlocked })
             { t with isBlocked := !(!t.isBlocked) }) := by
      simp [toggleUserH, hfind1]
    rw [happly2, user_toggle_toggle]
    show { db with
      users := (db.users.map
          (fun x => if x.id == ({ t with isBlocked := !t.isBlocked } : User).id
                    then { t with isBlocked := !t.isBlocked } else x)).map
        (fun x => if x.id == t.id then t else x) } = db
    have hlists : (db.users.map
          (fun x => if x.id == ({ t with isBlocked := !t.isBlocked } : User).id
                    then { t with isBlocked := !t.isBlocked } else x)).map
        (fun x => if x.id == t.id then t else x) = db.users := by
      rw [List.map_map]
      have hpt : ∀ x ∈ db.users,
          ((fun x => if x.id == t.id then t else x) ∘
           (fun x => if x.id == ({ t with isBlocked := !t.isBlocked } : User).id
                     then { t with isBlocked := !t.isBlocked } else x)) x
          = (fun x => if x.id == t.id then t else x) x := by
        intro x hx
        by_cases hc : (x.id == t.id) = true
        · simp [Function.comp, hc]
        · simp [Function.comp, hc]
      rw [List.map_congr_left hpt]
      exact map_replace_self User.id db.users t hmem hnd
    rw [hlists]

/-- Witness for C10 at the concrete store (user ids 8 and 4). -/
theorem admin_toggle_involution_witness :
    (findUser blockedDb 8 = some blockedUser
      ∧ (blockedDb.users.map User.id).Nodup)
    ∧ ((toggleUserH blockedDb 8).1.1 = 200
      ∧ findUser (toggleUserH blockedDb 8).2 8
          = some { blockedUser with isBlocked := !blockedUser.isBlocked }
      ∧ (∀ x ∈ blockedDb.users, x.id ≠ 8 →
          x ∈ (toggleUserH blockedDb 8).2.users)
      ∧ (toggleUserH blockedDb 8).2.jobs = blockedDb.jobs
      ∧ (toggleUserH blockedDb 8).2.apps = blockedDb.apps
      ∧ (toggleUserH (toggleUserH blockedDb 8).2 8).2 = blockedDb) :=
  ⟨⟨by decide, by decide⟩,
   admin_toggle_involution blockedDb blockedUser (by decide) (by decide)⟩

/-- C4: confirmed.  For an owner or admin caller, the update path writes
back exactly the whitelist merge applyAllowedFields j b (or, when schema
validation rejects it, leaves the store untouched): postedBy, status,
datePosted and the id are identical to the stored job no matter what the
body tried to set, every other job document survives, and the user and
application collections are untouched. -/
theorem job_update_whitelist_frame
    (db : DB) (j : Job) (b : JobBody) (caller : User)
    (hj : findJob db j.id = some j)
    (hauth : j.postedBy = caller.id ∨ caller.role = "admin") :
    ((updateJobH db j.id b caller).2 = db
      ∨ ((updateJobH db j.id b caller).1 = (200, "")
         ∧ findJob (updateJobH db j.id b caller).2 j.id
             = some (applyAllowedFields j b)))
    ∧ (applyAllowedFields j b).postedBy = j.postedBy
    ∧ (applyAllowedFields j b).status = j.status
    ∧ (applyAllowedFields j b).datePosted = j.datePosted
    ∧ (applyAllowedFields j b).id = j.id
    ∧ (∀ x ∈ db.jobs, x.id ≠ j.id → x ∈ (updateJobH db j.id b caller).2.jobs)
    ∧ (updateJobH db j.id b caller).2.users = db.users
    ∧ (updateJobH db j.id b caller).2.apps = db.apps := by
  have hcond : (j.postedBy != caller.id && caller.role != "admin") = false := by
    rcases hauth with h | h <;> simp [h]
  by_cases hv : jobValid (applyAllowedFields j b) = true
  · have happly : updateJobH db j.id b caller
        = ((200, ""),
           { db with jobs := db.jobs.map (fun x =>
               if x.id == (applyAllowedFields j b).id
               then applyAllowedFields j b else x) }) := by
      simp [updateJobH, hj, hcond, saveJob, hv]
    refine ⟨Or.inr ⟨by rw [happly], ?_⟩, rfl, rfl, rfl, rfl, ?_, by rw [happly],
      by rw [happly]⟩
    · rw [happly]
      exact find?_replace Job.id j.id db.jobs j (applyAllowedFields j b) hj rfl
    · intro x hx hne
      rw [happly]
      exact mem_replace_of_ne Job.id db.jobs (applyAllowedFields j b) x hx hne
  · have happly : updateJobH db j.id b caller = ((500, "Server error"), db) := by
      simp [updateJobH, hj, hcond, saveJob, hv]
    exact ⟨Or.inl (by rw [happly]), rfl, rfl, rfl, rfl,
      fun x hx _ => by rw [happly]; exact hx, by rw [happly], by rw [happly]⟩

/-- Witness for C4: the owning recruiter updates the concrete job with a
body that also tries to set postedBy, datePosted and status. -/
theorem job_update_whitelist_frame_witness :
    (findJob moderationDb 1 = some moderatedJob
      ∧ (moderatedJob.postedBy = recruiterUser.id
         ∨ recruiterUser.role = "admin"))
    ∧ (((updateJobH moderationDb 1 tamperBody recruiterUser).2 = moderationDb
        ∨ ((updateJobH moderationDb 1 tamperBody recruiterUser).1 = (200, "")
           ∧ findJob (updateJobH moderationDb 1 tamperBody recruiterUser).2 1
               = some (applyAllowedFields moderatedJob tamperBody)))
      ∧ (applyAllowedFields moderatedJob tamperBody).postedBy
          = moderatedJob.postedBy
      ∧ (applyAllowedFields moderatedJob tamperBody).status
          = moderatedJob.status
      ∧ (applyAllowedFields moderatedJob tamperBody).datePosted
          = moderatedJob.datePosted
      ∧ (applyAllowedFields moderatedJob tamperBody).id = moderatedJob.id
      ∧ (∀ x ∈ moderationDb.jobs, x.id ≠ 1 →
          x ∈ (updateJobH moderationDb 1 tamperBody recruiterUser).2.jobs)
      ∧ (updateJobH moderationDb 1 tamperBody recruiterUser).2.users
          = moderationDb.users
      ∧ (updateJobH moderationDb 1 tamperBody recruiterUser).2.apps
          = moderationDb.apps) :=
  ⟨⟨by decide, by decide⟩,
   job_update_whitelist_frame moderationDb moderatedJob tamperBody
     recruiterUser (by decide) (by decide)⟩

/-- The Object.assign duplicate of the update route lets the body overwrite
postedBy and status; recorded as context for the wired whitelist route
settled by theorem job_update_whitelist_frame. -/
theorem job_update_assign_variant_overwrites :
    (applyAssignBody moderatedJob tamperBody).postedBy = 99
    ∧ (applyAssignBody moderatedJob tamperBody).status = "closed" := by
  decide

/-- C6 (amended): confirmed for applications whose referenced job exists.
An admin always succeeds, an owning recruiter succeeds, a non-owning
recruiter gets 403, any other role is stopped by the route's role gate, and
a success persists the caller-supplied status string verbatim (any string,
there being no enum validation). -/
theorem status_update_owner_gate
    (db : DB) (a : Application) (j : Job) (caller : User) (s : String)
    (ha : findApp db a.id = some a) (hj : findJob db a.job = some j) :
    (caller.role = "admin" →
      updateStatusH db a.id s caller
        = ((200, "Application status updated"), saveApp db { a with status := s }))
    ∧ (caller.role = "recruiter" → j.postedBy = caller.id →
      updateStatusH db a.id s caller
        = ((200, "Application status updated"), saveApp db { a with status := s }))
    ∧ (caller.role = "recruiter" → j.postedBy ≠ caller.id →
      updateStatusH db a.id s caller
        = ((403, "Not authorized to update this application"), db))
    ∧ findApp (saveApp db { a with status := s }) a.id = some { a with status := s }
    ∧ (∀ v : User, v.role ≠ "recruiter" → v.role ≠ "admin" →
        authorize ["recruiter", "admin"] v = .error (403, "Access denied")) := by
  refine ⟨?_, ?_, ?_, ?_, ?_⟩
  · intro hr
    simp [updateStatusH, ha, hr]
  · intro hr hown
    simp [updateStatusH, ha, hj, hr, hown]
  · intro hr hown
    simp [updateStatusH, ha, hj, hr, hown]
  · exact find?_replace Application.id a.id db.apps a { a with status := s } ha rfl
  · intro v h1 h2
    simp [authorize, h1, h2]

/-- Witness for C6 at the concrete store: recruiter 3 owns job 1 and sets
the status of application 11 to "shortlisted". -/
theorem status_update_owner_gate_witness :
    (findApp statusDb 11 = some workApp ∧ findJob statusDb 1 = some moderatedJob)
    ∧ ((recruiterUser.role = "admin" →
        updateStatusH statusDb 11 "shortlisted" recruiterUser
          = ((200, "Application status updated"),
             saveApp statusDb { workApp with status := "shortlisted" }))
      ∧ (recruiterUser.role = "recruiter" →
          moderatedJob.postedBy = recruiterUser.id →
          updateStatusH statusDb 11 "shortlisted" recruiterUser
            = ((200, "Application status updated"),
               saveApp statusDb { workApp with status := "shortlisted" }))
      ∧ (recruiterUser.role = "recruiter" →
          moderatedJob.postedBy ≠ recruiterUser.id →
          updateStatusH statusDb 11 "shortlisted" recruiterUser
            = ((403, "Not authorized to update this application"), statusDb))
      ∧ findApp (saveApp statusDb { workApp with status := "shortlisted" }) 11
          = some { workApp with status := "shortlisted" }
      ∧ (∀ v : User, v.role ≠ "recruiter" → v.role ≠ "admin" →
          authorize ["recruiter", "admin"] v = .error (403, "Access denied"))) :=
  ⟨⟨by decide, by decide⟩,
   status_update_owner_gate statusDb workApp moderatedJob recruiterUser
     "shortlisted" (by decide) (by decide)⟩

/-- The non-owning recruiter is refused with 403 on the same concrete
store, matching the scenario of spec section 8. -/
theorem status_update_nonowner_403 :
    updateStatusH statusDb 11 "shortlisted" otherRecruiter
      = ((403, "Not authorized to update this application"), statusDb) := by
  decide

/-- C3: confirmed (storage modelled from the spec).  Sequentially, a first
apply succeeds and leaves exactly one Application for the pair, and a
second apply on the resulting store answers 400 "Already applied for this
job" and changes nothing.  But the guard is an existence lookup running
before the insert, and the modelled storage carries no uniqueness
constraint: when two calls interleave so that both lookups read the
pre-insert store — where the check passes — the two inserts go through and
the pair ends up with two Applications. -/
theorem duplicate_application_guard_and_race
    (db : DB) (j : Job) (caller : User) (file : String) (n1 n2 : Nat)
    (hj : findJob db j.id = some j)
    (hnone : db.apps.find?
        (fun a => a.job == j.id && a.applicant == caller.id) = none) :
    (applyH db j.id (some file) n1 caller).1 = (200, "Application submitted")
    ∧ countPair (applyH db j.id (some file) n1 caller).2 j.id caller.id = 1
    ∧ applyH (applyH db j.id (some file) n1 caller).2 j.id (some file) n2 caller
        = ((400, "Already applied for this job"),
           (applyH db j.id (some file) n1 caller).2)
    ∧ applyCheck db j.id caller.id = none
    ∧ countPair
        (applyInsert (applyInsert db n1 j.id caller.id file) n2 j.id caller.id file)
        j.id caller.id = 2 := by
  have hcheck : applyCheck db j.id caller.id = none := by
    simp [applyCheck, hj, hnone]
  have happ1 : applyH db j.id (some file) n1 caller
      = ((200, "Application submitted"), applyInsert db n1 j.id caller.id file) := by
    simp [applyH, hcheck]
  have hfilter0 : db.apps.filter
      (fun a => a.job == j.id && a.applicant == caller.id) = [] := by
    rw [List.filter_eq_nil_iff]
    exact List.find?_eq_none.mp hnone
  have hpred : ∀ m : Nat,
      ((fun a => a.job == j.id && a.applicant == caller.id)
        ({ id := m, job := j.id, applicant := caller.id,
           resumeUrl := file, status := "applied" } : Application)) = true := by
    intro m
    simp
  have hcheck2 : applyCheck (applyInsert db n1 j.id caller.id file) j.id caller.id
      = some (400, "Already applied for this job") := by
    have hjob2 : findJob (applyInsert db n1 j.id caller.id file) j.id = some j := hj
    simp only [applyCheck]
    rw [hjob2]
    simp [applyInsert, List.find?_append, hnone, hpred n1]
  refine ⟨by rw [happ1], ?_, ?_, hcheck, ?_⟩
  · rw [happ1]
    simp only [countPair, applyInsert, List.filter_append, hfilter0]
    simp [hpred n1]
  · rw [happ1]
    simp [applyH, hcheck2]
  · simp only [countPair, applyInsert, List.append_assoc, List.filter_append,
      hfilter0]
    simp [hpred n1, hpred n2]

/-- Witness for C3: applicant 2 applies to job 1 on the concrete store. -/
theorem duplicate_application_guard_and_race_witness :
    (findJob applyDb 1 = some moderatedJob
      ∧ applyDb.apps.find?
          (fun a => a.job == 1 && a.applicant == applicantUser.id) = none)
    ∧ ((applyH applyDb 1 (some "uploads/resumes/a.pdf") 21 applicantUser).1
        = (200, "Application submitted")
      ∧ countPair
          (applyH applyDb 1 (some "uploads/resumes/a.pdf") 21 applicantUser).2
          1 applicantUser.id = 1
      ∧ applyH (applyH applyDb 1 (some "uploads/resumes/a.pdf") 21 applicantUser).2
          1 (some "uploads/resumes/a.pdf") 22 applicantUser
          = ((400, "Already applied for this job"),
             (applyH applyDb 1 (some "uploads/resumes/a.pdf") 21 applicantUser).2)
      ∧ applyCheck applyDb 1 applicantUser.id = none
      ∧ countPair
          (applyInsert (applyInsert applyDb 21 1 applicantUser.id
              "uploads/resumes/a.pdf")
            22 1 applicantUser.id "uploads/resumes/a.pdf")
          1 applicantUser.id = 2) :=
  ⟨⟨by decide, by decide⟩,
   duplicate_application_guard_and_race applyDb moderatedJob applicantUser
     "uploads/resumes/a.pdf" 21 22 (by decide) (by decide)⟩

/-- C8 (amended): every modelled missing-resource failure answers 404 —
missing job on update, apply and moderation; missing application on status
update and resume fetch; missing user on the admin toggle; missing resume
file on an in-root reference — with the single exception of GET /jobs/:id,
whose missing-job branch answers 400. -/
theorem missing_resource_status_codes
    (db : DB) (jid aid rid nid : Nat) (caller : User) (s f cwd : String)
    (b : JobBody) (uid : Nat) (ra : Application) (fs : List String)
    (hjob : findJob db jid = none) (happ : findApp db aid = none)
    (huser : findUser db uid = none)
    (hra : findApp db rid = some ra)
    (hpath : strStartsWith (pathResolve cwd ra.resumeUrl)
        (pathResolve cwd "uploads") = true)
    (hfile : fs.contains (pathResolve cwd ra.resumeUrl) = false) :
    updateJobH db jid b caller = ((404, "Job not found"), db)
    ∧ applyH db jid (some f) nid caller = ((404, "Job not found"), db)
    ∧ approveJobH db jid s = ((404, "Job not found"), db)
    ∧ updateStatusH db aid s caller = ((404, "Application not found"), db)
    ∧ getResumeH cwd fs db aid = .resp 404 "Application not found"
    ∧ toggleUserH db uid = ((404, "User not found"), db)
    ∧ getResumeH cwd fs db rid = .resp 404 "Resume file not found"
    ∧ getJobByIdH db jid = .error (400, "Job not found") := by
  refine ⟨?_, ?_, ?_, ?_, ?_, ?_, ?_, ?_⟩
  · simp [updateJobH, hjob]
  · simp [applyH, applyCheck, hjob]
  · simp [approveJobH, hjob]
  · simp [updateStatusH, happ]
  · simp [getResumeH, happ]
  · simp [toggleUserH, huser]
  · have hnotmem : pathResolve cwd ra.resumeUrl ∉ fs := by
      simpa using hfile
    simp [getResumeH, hra, hpath, hnotmem]
  · simp [getJobByIdH, hjob]

/-- Witness for C8 on a concrete store: job 1 is absent, application 7 is
absent, user 99 is absent, and application 5 has a well-formed in-root
reference whose file does not exist. -/
theorem missing_resource_status_codes_witness :
    (findJob orphanDb 1 = none ∧ findApp orphanDb 7 = none
      ∧ findUser orphanDb 99 = none ∧ findApp orphanDb 5 = some orphanApp
      ∧ strStartsWith (pathResolve guardCwd orphanApp.resumeUrl)
          (pathResolve guardCwd "uploads") = true
      ∧ List.contains [] (pathResolve guardCwd orphanApp.resumeUrl) = false)
    ∧ (updateJobH orphanDb 1 tamperBody recruiterUser
        = ((404, "Job not found"), orphanDb)
      ∧ applyH orphanDb 1 (some "uploads/resumes/a.pdf") 31 recruiterUser
          = ((404, "Job not found"), orphanDb)
      ∧ approveJobH orphanDb 1 "rejected" = ((404, "Job not found"), orphanDb)
      ∧ updateStatusH orphanDb 7 "rejected" recruiterUser
          = ((404, "Application not found"), orphanDb)
      ∧ getResumeH guardCwd [] orphanDb 7 = .resp 404 "Application not found"
      ∧ toggleUserH orphanDb 99 = ((404, "User not found"), orphanDb)
      ∧ getResumeH guardCwd [] orphanDb 5 = .resp 404 "Resume file not found"
      ∧ getJobByIdH orphanDb 1 = .error (400, "Job not found")) :=
  ⟨⟨by decide, by decide, by decide, by decide, by decide, by decide⟩,
   missing_resource_status_codes orphanDb 1 7 5 31 recruiterUser "rejected"
     "uploads/resumes/a.pdf" guardCwd tamperBody 99 orphanApp []
     (by decide) (by decide) (by decide) (by decide) (by decide) (by decide)⟩

/-- C9: confirmed.  PUT /profile/me replaces the stored profile wholesale
with the cast request body — a profile field absent from the body comes out
erased — while PUT /profile/update merges per-field: a field absent from
the body keeps its stored value, a present field is overwritten, and
resumeUrl and companyLogo are never touched by that path. -/
theorem profile_me_replaces_update_merges
    (db : DB) (u : User) (b : ProfileBody) (ub : UpdateBody)
    (hu : findUser db u.id = some u) :
    findUser (putProfileMeH db u.id b).2 u.id
      = some { u with profile := profileOfBody b }
    ∧ (b.resumeUrl = none → (profileOfBody b).resumeUrl = none)
    ∧ (b.companyLogo = none → (profileOfBody b).companyLogo = none)
    ∧ (b.skills = none → (profileOfBody b).skills = [])
    ∧ findUser (putProfileUpdateH db u.id ub).2 u.id
        = some { u with name := ub.name.getD u.name,
                        profile := mergeProfile u.profile ub }
    ∧ (mergeProfile u.profile ub).resumeUrl = u.profile.resumeUrl
    ∧ (mergeProfile u.profile ub).companyLogo = u.profile.companyLogo
    ∧ (ub.skills = none → (mergeProfile u.profile ub).skills = u.profile.skills)
    ∧ (ub.experience = none →
        (mergeProfile u.profile ub).experience = u.profile.experience)
    ∧ (ub.bio = none → (mergeProfile u.profile ub).bio = u.profile.bio)
    ∧ (ub.companyName = none →
        (mergeProfile u.profile ub).companyName = u.profile.companyName)
    ∧ (ub.website = none →
        (mergeProfile u.profile ub).website = u.profile.website)
    ∧ (ub.description = none →
        (mergeProfile u.profile ub).description = u.profile.description)
    ∧ (∀ v, ub.bio = some v → (mergeProfile u.profile ub).bio = some v)
    ∧ (ub.name = none →
        ({ u with name := ub.name.getD u.name } : User).name = u.name) := by
  refine ⟨?_, ?_, ?_, ?_, ?_, rfl, rfl, ?_, ?_, ?_, ?_, ?_, ?_, ?_, ?_⟩
  · simp only [putProfileMeH, hu]
    exact find?_replace User.id u.id db.users u
      { u with profile := profileOfBody b } hu rfl
  · intro h
    simp [profileOfBody, h]
  · intro h
    simp [profileOfBody, h]
  · intro h
    simp [profileOfBody, h]
  · simp only [putProfileUpdateH, hu]
    exact find?_replace User.id u.id db.users u
      { u with name := ub.name.getD u.name,
               profile := mergeProfile u.profile ub } hu rfl
  · intro h
    simp [mergeProfile, h]
  · intro h
    simp [mergeProfile, h]
  · intro h
    simp [mergeProfile, h]
  · intro h
    simp [mergeProfile, h]
  · intro h
    simp [mergeProfile, h]
  · intro h
    simp [mergeProfile, h]
  · intro v h
    simp [mergeProfile, h]
  · intro h
    simp [h]

/-- Witness for C9 at the concrete account: the /me body erases the stored
resumeUrl while the /update body leaves it alone. -/
theorem profile_me_replaces_update_merges_witness :
    findUser profileDb 12 = some profiledUser
    ∧ (findUser (putProfileMeH profileDb 12 meBody).2 12
        = some { profiledUser with profile := profileOfBody meBody }
      ∧ (meBody.resumeUrl = none → (profileOfBody meBody).resumeUrl = none)
      ∧ (meBody.companyLogo = none → (profileOfBody meBody).companyLogo = none)
      ∧ (meBody.skills = none → (profileOfBody meBody).skills = [])
      ∧ findUser (putProfileUpdateH profileDb 12 upBody).2 12
          = some { profiledUser with
                   name := upBody.name.getD profiledUser.name,
                   profile := mergeProfile profiledUser.profile upBody }
      ∧ (mergeProfile profiledUser.profile upBody).resumeUrl
          = profiledUser.profile.resumeUrl
      ∧ (mergeProfile profiledUser.profile upBody).companyLogo
          = profiledUser.profile.companyLogo
      ∧ (upBody.skills = none →
          (mergeProfile profiledUser.profile upBody).skills
            = profiledUser.profile.skills)
      ∧ (upBody.experience = none →
          (mergeProfile profiledUser.profile upBody).experience
            = profiledUser.profile.experience)
      ∧ (upBody.bio = none →
          (mergeProfile profiledUser.profile upBody).bio
            = profiledUser.profile.bio)
      ∧ (upBody.companyName = none →
          (mergeProfile profiledUser.profile upBody).companyName
            = profiledUser.profile.companyName)
      ∧ (upBody.website = none →
          (mergeProfile profiledUser.profile upBody).website
            = profiledUser.profile.website)
      ∧ (upBody.description = none →
          (mergeProfile profiledUser.profile upBody).description
            = profiledUser.profile.description)
      ∧ (∀ v, upBody.bio = some v →
          (mergeProfile profiledUser.profile upBody).bio = some v)
      ∧ (upBody.name = none →
          ({ profiledUser with
             name := upBody.name.getD profiledUser.name } : User).name
            = profiledUser.name)) :=
  ⟨by decide,
   profile_me_replaces_update_merges profileDb profiledUser meBody upBody
     (by decide)⟩
